import Mathlib

/-!
Verification development for the resumable book-generation controller in
`scripts/generate_books_with_ollama.py`.

Texts are modelled as `List Char`.  Calls to the external generation service
are modelled by oracle functions supplied as an `Engine`; everything else
(word counting, string normalisation, the per-chapter production policy, the
per-book loop, metadata and the terminal under-length failure, the transport
retry loop, the health-check timeout) is translated directly from the source.
-/

namespace BookGen

/-- Texts are lists of characters. -/
abbrev Text := List Char

/-- Convert a string literal to the `Text` representation. -/
def txt (s : String) : Text := s.toList

/-- Word characters of `WORD_RE = re.compile(r"[A-Za-z0-9#]+")` where `#`
stands for the apostrophe character (codepoint 39). -/
def isWordChar (c : Char) : Bool :=
  (decide (Char.ofNat 65 ≤ c) && decide (c ≤ Char.ofNat 90)) ||
  (decide (Char.ofNat 97 ≤ c) && decide (c ≤ Char.ofNat 122)) ||
  (decide (Char.ofNat 48 ≤ c) && decide (c ≤ Char.ofNat 57)) ||
  c == Char.ofNat 39

/-- Count the maximal runs of word characters in a text; the Boolean flag
records whether the previous character belonged to a run. -/
def countTokensAux : Text → Bool → Nat
  | [], _ => 0
  | c :: cs, inWord =>
    if isWordChar c then (if inWord then 0 else 1) + countTokensAux cs true
    else countTokensAux cs false

/-- `count_words(text) = len(WORD_RE.findall(text))`: the number of maximal
runs of characters matching `[A-Za-z0-9#]` (with `#` the apostrophe). -/
def count_words (s : Text) : Nat := countTokensAux s false

/-- ASCII whitespace recognised by Python `str.strip()` on the texts this
program manipulates: space, tab, newline, carriage return, vertical tab,
form feed. -/
def isPySpace (c : Char) : Bool :=
  c == Char.ofNat 32 || c == Char.ofNat 9 || c == Char.ofNat 10 ||
  c == Char.ofNat 13 || c == Char.ofNat 11 || c == Char.ofNat 12

/-- Python `str.strip()`: drop leading and trailing whitespace. -/
def pyStrip (s : Text) : Text :=
  ((s.dropWhile isPySpace).reverse.dropWhile isPySpace).reverse

/-- Python `sep.join(parts)`. -/
def joinSep (sep : Text) : List Text → Text
  | [] => []
  | [x] => x
  | x :: y :: rest => x ++ sep ++ joinSep sep (y :: rest)

/-- `manuscript_text`: the title header followed by a blank line, the chapters
joined by blank lines and stripped, and a trailing newline. -/
def manuscript_text (title : Text) (chapters : List Text) : Text :=
  (title ++ txt "\n\n") ++ pyStrip (joinSep (txt "\n\n") chapters) ++ txt "\n"

deriving instance DecidableEq for Except

/-- Decimal rendering of a number, as Python f-string interpolation of an int. -/
def natText (n : Nat) : Text := (Nat.repr n).toList

/-- One step of Python `str.replace`, with fuel bounding the recursion depth;
the fuel is set to the length of the subject text, which suffices for a
non-empty pattern because every step consumes at least one character. -/
def replaceAllAux (pat sub : Text) : Nat → Text → Text
  | 0, s => s
  | _ + 1, [] => []
  | fuel + 1, c :: rest =>
    if pat.isPrefixOf (c :: rest) then sub ++ replaceAllAux pat sub fuel ((c :: rest).drop pat.length)
    else c :: replaceAllAux pat sub fuel rest

/-- Python `s.replace(pat, sub)`: replace all non-overlapping occurrences from
the left; for the empty pattern Python inserts `sub` around every character. -/
def replaceAll (s pat sub : Text) : Text :=
  if pat.isEmpty then sub ++ List.flatten (s.map fun c => c :: sub)
  else replaceAllAux pat sub s.length s

/-- Python `str.lower()` on one ASCII character. -/
def asciiLowerChar (c : Char) : Char :=
  if Char.ofNat 65 ≤ c ∧ c ≤ Char.ofNat 90 then Char.ofNat (c.toNat + 32) else c

/-- Python `str.lower()` restricted to ASCII case mapping. -/
def asciiLower (s : Text) : Text := s.map asciiLowerChar

/-- `BookSpec`: static description of one book. -/
structure BookSpec where
  genre : Text
  title : Text
  premise : Text
  tone : Text
  chapter_plans : List Text

/-- One request to the generation endpoint as issued by the chapter loop:
the system text, the prompt, and the sampling temperature (an exact rational
standing for the float literal passed in the source). -/
structure GenCall where
  system : Text
  prompt : Text
  temperature : ℚ
deriving DecidableEq

/-- Oracles for the three kinds of service calls the controller makes.
`generate` models a chapter-generation call that succeeded after transport
retries; `summarize` and `merge` model the continuity-engine calls, with an
`Except.error` carrying the message of a raised generation failure. -/
structure Engine where
  generate : GenCall → Text
  summarize : Text → Except Text Text
  merge : Text → Text → Except Text Text

/-- Trace of service calls made by the controller, in order. -/
inductive CallEvent
  | gen (call : GenCall)
  | summarize (input : Text)
  | merge (previous latest : Text)
deriving DecidableEq

/-- `make_chapter_prompt`: the system/prompt pair for one chapter.  The
subtraction in `max 1200 (target_words - 250)` is truncated at zero, which
agrees with the Python `max(1200, target_words - 250)` for every value the
`max` can select. -/
def make_chapter_prompt (spec : BookSpec) (chapter_number : Nat)
    (chapter_goal story_memory : Text) (target_words : Nat) : Text × Text :=
  let system :=
    txt "You are writing a " ++ spec.genre ++
    txt " novel chapter-by-chapter. Write natural prose with varied sentence rhythm and pacing. Avoid repetitive phrasing and avoid reusing prior paragraphs verbatim. No meta commentary. No outlines. No markdown."
  let prompt :=
    txt "Book title: " ++ spec.title ++
    txt "\nGenre: " ++ spec.genre ++
    txt "\nPremise: " ++ spec.premise ++
    txt "\nTone: " ++ spec.tone ++
    txt "\nChapter number: " ++ natText chapter_number ++
    txt "\nTarget chapter length: about " ++ natText target_words ++
    txt " words (minimum " ++ natText (max 1200 (target_words - 250)) ++
    txt ").\n\nStory summary so far:\n" ++ story_memory ++
    txt "\n\nGeneral plot objective for this chapter:\n" ++ chapter_goal ++
    txt "\n\nInstructions:\n- Start with \x27Chapter \x7bN\x7d: <title>\x27 on the first line.\n- Continue directly with prose scenes.\n- Advance the story materially; include consequences from prior chapters.\n- End with a clear hook into the next chapter.\n- Output chapter text only.\n"
  (system, replaceAll prompt (txt "\x7bN\x7d") (natText chapter_number))

/-- The generic escalation objective used past the end of the authored plans. -/
def escalationGoal : Text :=
  txt "Continue escalation from prior chapter, deepen character consequences, and set up the final resolution without repeating earlier scenes."

/-- Objective selection for a chapter number (1-based): the authored plan at
index `chapter_no - 1` while in range, the generic escalation goal beyond. -/
def chapterGoal (spec : BookSpec) (chapter_no : Nat) : Text :=
  if chapter_no ≤ spec.chapter_plans.length then spec.chapter_plans.getD (chapter_no - 1) (txt "")
  else escalationGoal

/-- The first generation call for a chapter: temperature 0.75. -/
def firstCall (spec : BookSpec) (n : Nat) (goal memory : Text) (target : Nat) : GenCall :=
  { system := (make_chapter_prompt spec n goal memory target).1
    prompt := (make_chapter_prompt spec n goal memory target).2
    temperature := 0.75 }

/-- The single regeneration call: objective extended with the fuller-scenes
instruction, target relaxed to `max target 2000`, temperature 0.8. -/
def retryCall (spec : BookSpec) (n : Nat) (goal memory : Text) (target : Nat) : GenCall :=
  { system := (make_chapter_prompt spec n (goal ++ txt " Write fuller scenes and dialogue.") memory (max target 2000)).1
    prompt := (make_chapter_prompt spec n (goal ++ txt " Write fuller scenes and dialogue.") memory (max target 2000)).2
    temperature := 0.8 }

/-- Prefix the synthetic heading when the text does not start with the
(lower-cased) chapter marker. -/
def normalizeFirst (n : Nat) (t : Text) : Text :=
  if (txt "chapter ").isPrefixOf (asciiLower t) then t
  else txt "Chapter " ++ natText n ++ txt ": Untitled\n\n" ++ t

/-- The stripped and heading-normalised result of the first attempt. -/
def first_attempt (eng : Engine) (spec : BookSpec) (n : Nat) (goal memory : Text) (target : Nat) : Text :=
  normalizeFirst n (pyStrip (eng.generate (firstCall spec n goal memory target)))

/-- Per-chapter production: one attempt, and on a short result exactly one
regeneration whose (stripped) output is accepted unconditionally.  The second
component lists the generation calls issued. -/
def produce_chapter (eng : Engine) (spec : BookSpec) (n : Nat) (goal memory : Text) (target : Nat) : Text × List GenCall :=
  let t1 := first_attempt eng spec n goal memory target
  if count_words t1 < max 900 (target / 2) then
    (pyStrip (eng.generate (retryCall spec n goal memory target)),
      [firstCall spec n goal memory target, retryCall spec n goal memory target])
  else (t1, [firstCall spec n goal memory target])

/-- `summarize_chapter`: continuity-engine call on the chapter text truncated
to its first 12000 characters. -/
def summarize_chapter (eng : Engine) (chapter_text : Text) : Except Text Text :=
  eng.summarize (chapter_text.take 12000)

/-- `merge_memory`: continuity-engine call folding the latest summary into the
running memory. -/
def merge_memory (eng : Engine) (previous_memory latest_summary : Text) : Except Text Text :=
  eng.merge previous_memory latest_summary

/-- Python slice `l[-n:]`: the last `min n (len l)` elements. -/
def lastN (n : Nat) (l : List Text) : List Text := l.drop (l.length - n)

/-- The local fallback memory used when `merge` raises: the fixed header
followed by the newline-joined most recent 5 summaries. -/
def fallbackMemory (summaries : List Text) : Text :=
  txt "Recent continuity notes:\n" ++ joinSep (txt "\n") (lastN 5 summaries)

/-- The in-memory per-book state carried around the loop. -/
structure LoopState where
  chapters : List Text
  summaries : List Text
  memory : Text
deriving DecidableEq

/-- Result of one loop iteration: the new state, the service calls made, and
the `word_count` value persisted with the state document. -/
structure StepOut where
  state : LoopState
  calls : List CallEvent
  persisted_word_count : Nat
deriving DecidableEq

/-- The summary recorded for a chapter: the stripped engine output, or the
synthetic placeholder recording the failure message. -/
def chapterSummaryOf (eng : Engine) (chapter_no : Nat) (chapter_text : Text) : Text :=
  match summarize_chapter eng chapter_text with
  | .ok t => pyStrip t
  | .error e => txt "Chapter " ++ natText chapter_no ++ txt " summary unavailable due to error: " ++ e

/-- The updated story memory: the stripped merge output, or on a merge
failure the local fallback built from the updated summary list. -/
def memoryOf (eng : Engine) (previous_memory chapter_summary : Text)
    (chapter_summaries : List Text) : Text :=
  match merge_memory eng previous_memory chapter_summary with
  | .ok t => pyStrip t
  | .error _ => fallbackMemory chapter_summaries

/-- One iteration of the per-book loop body: produce a chapter, append it,
derive its summary (with the placeholder fallback), update the memory (with
the last-5-summaries fallback), and recompute the persisted word count. -/
def step (eng : Engine) (spec : BookSpec) (target_chapter_words : Nat) (s : LoopState) : StepOut :=
  let chapter_no := s.chapters.length + 1
  let goal := chapterGoal spec chapter_no
  let pc := produce_chapter eng spec chapter_no goal s.memory target_chapter_words
  let chapter_text := pc.1
  let chapters := s.chapters ++ [chapter_text]
  let chapter_summary := chapterSummaryOf eng chapter_no chapter_text
  let chapter_summaries := s.summaries ++ [chapter_summary]
  let story_memory := memoryOf eng s.memory chapter_summary chapter_summaries
  { state := ⟨chapters, chapter_summaries, story_memory⟩
    calls := pc.2.map CallEvent.gen ++
      [CallEvent.summarize (chapter_text.take 12000), CallEvent.merge s.memory chapter_summary]
    persisted_word_count := count_words (manuscript_text spec.title chapters) }

/-- The `while` condition: word count below the floor and chapter count below
the cap. -/
def loopCond (title : Text) (min_words max_chapters : Nat) (s : LoopState) : Bool :=
  decide (count_words (manuscript_text title s.chapters) < min_words) &&
  decide (s.chapters.length < max_chapters)

/-- The per-book `while` loop, with explicit fuel.  Because every iteration
adds one chapter and the condition requires the chapter count to stay below
`max_chapters`, any fuel of at least `max_chapters` makes the zero-fuel branch
unreachable; the caller passes `max_chapters`. -/
def genLoopF (eng : Engine) (spec : BookSpec) (min_words target_chapter_words max_chapters : Nat) :
    Nat → LoopState → LoopState × List CallEvent
  | 0, s => (s, [])
  | fuel + 1, s =>
    if loopCond spec.title min_words max_chapters s then
      let o := step eng spec target_chapter_words s
      let r := genLoopF eng spec min_words target_chapter_words max_chapters fuel o.state
      (r.1, o.calls ++ r.2)
    else (s, [])

/-- The durable state document read back on resume. -/
structure StateDoc where
  chapters : List Text
  chapter_summaries : List Text
  story_memory : Text
deriving DecidableEq

/-- Initial in-memory state: the loaded document, or the fresh sentinel state. -/
def initState : Option StateDoc → LoopState
  | some d => ⟨d.chapters, d.chapter_summaries, d.story_memory⟩
  | none => ⟨[], [], txt "No chapters yet."⟩

/-- The metadata artifact, with the fields computed by the controller (the
wall-clock timestamp and the filesystem paths of the source are environment
data outside this embedding). -/
structure Metadata where
  title : Text
  genre : Text
  total_words : Nat
  chapters : Nat
  target_min_words : Nat
  chapter_summaries : List Text
deriving DecidableEq

/-- The terminal under-length failure message. -/
def underLengthMessage (title : Text) (total_words min_words : Nat) : Text :=
  title ++ txt " finished at " ++ natText total_words ++
  txt " words, below requested minimum " ++ natText min_words ++
  txt ". Increase --max-chapters or --target-chapter-words and rerun."

/-- Everything a run of `generate_one_book` produces: the final state, the
service-call trace, the manuscript artifact, the metadata artifact (written
unconditionally, before any raise), and the outcome (the manuscript on
success, the raised message on the under-length failure). -/
structure BookRun where
  final : LoopState
  calls : List CallEvent
  manuscript : Text
  metadata : Metadata
  outcome : Except Text Text
deriving DecidableEq

/-- `generate_one_book`: resume or initialise state, run the loop, write the
manuscript and metadata, and raise the under-length failure when the final
word count is still below the floor. -/
def generate_one_book (eng : Engine) (spec : BookSpec)
    (min_words target_chapter_words max_chapters : Nat) (prior : Option StateDoc) : BookRun :=
  let s0 := initState prior
  let r := genLoopF eng spec min_words target_chapter_words max_chapters max_chapters s0
  let manuscript := manuscript_text spec.title r.1.chapters
  let total_words := count_words manuscript
  { final := r.1
    calls := r.2
    manuscript := manuscript
    metadata := ⟨spec.title, spec.genre, total_words, r.1.chapters.length, min_words, r.1.summaries⟩
    outcome :=
      if total_words < min_words then
        Except.error (underLengthMessage spec.title total_words min_words)
      else Except.ok manuscript }

/-- The health-check timeout computed at the call site in `main`. -/
def health_check_timeout (timeout_sec : Int) : Int := max 5 (min timeout_sec 30)

/-- Transient transport failures raised by one attempt of `post_json`. -/
inductive NetErr
  | urlError
  | timeoutError
  | jsonDecodeError
deriving DecidableEq

/-- What one attempt of the transport loop can fail with: a `post_json`
failure, or the blank-response rejection. -/
inductive TransientErr
  | net (e : NetErr)
  | emptyResponse
deriving DecidableEq

/-- Result of a transport-level generation call: the final outcome (an error
carries the attempt count and the last underlying cause of the terminal
failure message), the number of attempts made, and the backoff sleeps
performed in order. -/
structure OllamaOutcome where
  result : Except (Nat × TransientErr) Text
  attemptsMade : Nat
  sleeps : List Nat
deriving DecidableEq

/-- One attempt: the environment gives the `post_json` outcome; a returned
body is stripped and a blank result is an error, never a valid response. -/
def attemptResult (env : Nat → Except NetErr Text) (attempt : Nat) : Except TransientErr Text :=
  match env attempt with
  | .error e => .error (TransientErr.net e)
  | .ok body =>
    let response := pyStrip body
    if response.isEmpty then .error TransientErr.emptyResponse else .ok response

/-- The `while True` retry loop of `ollama_generate`, with fuel.  The loop
leaves through a successful return or through the terminal raise once
`attempt >= retries`; starting from attempt 1 with fuel `retries`, the
zero-fuel branch is unreachable. -/
def ollamaLoop (env : Nat → Except NetErr Text) (retries : Nat) : Nat → Nat → OllamaOutcome
  | attempt, fuel =>
    match attemptResult env attempt with
    | .ok t => ⟨.ok t, attempt, []⟩
    | .error e =>
      if retries ≤ attempt then ⟨.error (attempt, e), attempt, []⟩
      else
        match fuel with
        | 0 => ⟨.error (attempt, e), attempt, []⟩
        | fuel' + 1 =>
          let o := ollamaLoop env retries (attempt + 1) fuel'
          ⟨o.result, o.attemptsMade, attempt * 2 :: o.sleeps⟩

/-- `ollama_generate` at the transport level: attempts start at 1. -/
def ollama_generate (env : Nat → Except NetErr Text) (retries : Nat) : OllamaOutcome :=
  ollamaLoop env retries 1 retries

/-! ### Concrete inputs used to instantiate the theorems -/

/-- 1499 repetitions of a space followed by the letter `w`. -/
def stubBody : Text := List.flatten (List.replicate 1499 [Char.ofNat 32, Char.ofNat 119])

/-- A fixed 1500-word chapter text starting with the lower-case chapter
marker: the word `chapter` followed by 1499 single-letter words. -/
def stub1500 : Text := txt "chapter " ++ stubBody

/-- An engine whose generation calls always return the fixed stub chapter. -/
def stubEngine : Engine :=
  { generate := fun _ => stub1500
    summarize := fun _ => Except.ok (txt "s")
    merge := fun _ _ => Except.ok (txt "m") }

/-- A concrete book description whose title contains two words. -/
def specNM : BookSpec :=
  ⟨txt "thriller", txt "Null Meridian", txt "p", txt "t", [txt "g1", txt "g2"]⟩

/-- An engine whose merge calls always fail. -/
def mergeFailEngine : Engine :=
  { generate := fun _ => txt "chapter 1: x"
    summarize := fun _ => Except.ok (txt "sum")
    merge := fun _ _ => Except.error (txt "boom") }

/-- An engine returning a two-letter text, far below any length threshold. -/
def shortEngine : Engine :=
  { generate := fun _ => txt "hi"
    summarize := fun _ => Except.ok (txt "s")
    merge := fun _ _ => Except.ok (txt "m") }

/-- An environment in which every transport attempt times out. -/
def envAllFail : Nat → Except NetErr Text := fun _ => Except.error NetErr.timeoutError

/-- The fresh loop state. -/
def freshState : LoopState := ⟨[], [], txt "No chapters yet."⟩

/-! ### Word-count lemmas -/

lemma countTokensAux_cons_word (c : Char) (h : isWordChar c = true) (cs : Text) (b : Bool) :
    countTokensAux (c :: cs) b = (if b then 0 else 1) + countTokensAux cs true := by
  simp [countTokensAux, h]

lemma countTokensAux_cons_not (c : Char) (h : isWordChar c = false) (cs : Text) (b : Bool) :
    countTokensAux (c :: cs) b = countTokensAux cs false := by
  simp [countTokensAux, h]

/-- Splitting a count at a non-word separator: the runs on each side are
counted independently. -/
lemma countTokensAux_append_sep (d : Char) (hd : isWordChar d = false) (ys : Text) :
    ∀ (xs : Text) (b : Bool),
      countTokensAux (xs ++ d :: ys) b = countTokensAux xs b + countTokensAux ys false := by
  intro xs
  induction xs with
  | nil => intro b; simp [countTokensAux, hd]
  | cons c cs ih =>
    intro b
    by_cases hc : isWordChar c = true
    · simp only [List.cons_append, countTokensAux_cons_word c hc, ih]
      omega
    · simp only [Bool.not_eq_true] at hc
      simp only [List.cons_append, countTokensAux_cons_not c hc, ih]

/-- A text made only of non-word characters contains no words. -/
lemma countTokensAux_all_nonword :
    ∀ (ys : Text), (∀ c ∈ ys, isWordChar c = false) → ∀ b, countTokensAux ys b = 0 := by
  intro ys
  induction ys with
  | nil => intro _ b; simp [countTokensAux]
  | cons c cs ih =>
    intro h b
    have hc : isWordChar c = false := h c (by simp)
    rw [countTokensAux_cons_not c hc]
    exact ih (fun d hd => h d (by simp [hd])) false

/-- Appending a suffix of non-word characters does not change the count. -/
lemma countTokensAux_append_nonword (ys : Text) (h : ∀ c ∈ ys, isWordChar c = false) :
    ∀ (xs : Text) (b : Bool), countTokensAux (xs ++ ys) b = countTokensAux xs b := by
  intro xs
  induction xs with
  | nil => intro b; simpa [countTokensAux] using countTokensAux_all_nonword ys h b
  | cons c cs ih =>
    intro b
    by_cases hc : isWordChar c = true
    · simp only [List.cons_append, countTokensAux_cons_word c hc, ih]
    · simp only [Bool.not_eq_true] at hc
      simp only [List.cons_append, countTokensAux_cons_not c hc, ih]

/-- Prepending non-word characters does not change the count started outside a run. -/
lemma countTokensAux_prepend_nonword :
    ∀ (pre : Text), (∀ c ∈ pre, isWordChar c = false) →
      ∀ (ys : Text), countTokensAux (pre ++ ys) false = countTokensAux ys false := by
  intro pre
  induction pre with
  | nil => intro _ ys; simp
  | cons c cs ih =>
    intro h ys
    have hc : isWordChar c = false := h c (by simp)
    rw [List.cons_append, countTokensAux_cons_not c hc]
    exact ih (fun d hd => h d (by simp [hd])) ys

/-- Splitting a count at a non-empty non-word separator text. -/
lemma countTokensAux_append_sepList (sep : Text) (hne : sep ≠ [])
    (hs : ∀ c ∈ sep, isWordChar c = false) (ys xs : Text) (b : Bool) :
    countTokensAux (xs ++ sep ++ ys) b = countTokensAux xs b + countTokensAux ys false := by
  cases sep with
  | nil => exact absurd rfl hne
  | cons d rest =>
    have hd : isWordChar d = false := hs d (by simp)
    have hshape : xs ++ (d :: rest) ++ ys = xs ++ d :: (rest ++ ys) := by simp
    rw [hshape, countTokensAux_append_sep d hd (rest ++ ys) xs b,
      countTokensAux_prepend_nonword rest (fun c hc => hs c (by simp [hc])) ys]

lemma isPySpace_not_word (c : Char) (h : isPySpace c = true) : isWordChar c = false := by
  simp only [isPySpace, Bool.or_eq_true, beq_iff_eq] at h
  rcases h with ((((h | h) | h) | h) | h) | h <;> subst h <;> decide

/-- Dropping leading whitespace does not change the word count. -/
lemma countTokensAux_dropWhile_space (s : Text) :
    countTokensAux (s.dropWhile isPySpace) false = countTokensAux s false := by
  induction s with
  | nil => simp
  | cons c cs ih =>
    by_cases hc : isPySpace c = true
    · rw [List.dropWhile_cons_of_pos hc, ih,
        countTokensAux_cons_not c (isPySpace_not_word c hc)]
    · simp only [Bool.not_eq_true] at hc
      rw [List.dropWhile_cons_of_neg (by simp [hc])]

/-- Python `strip` does not change the word count. -/
lemma count_words_pyStrip (s : Text) : count_words (pyStrip s) = count_words s := by
  unfold count_words pyStrip
  set u := s.dropWhile isPySpace with hu
  have hsplit : u = (u.reverse.dropWhile isPySpace).reverse ++ (u.reverse.takeWhile isPySpace).reverse := by
    conv_lhs => rw [← List.reverse_reverse u]
    rw [← List.reverse_append, List.takeWhile_append_dropWhile]
  have htail : ∀ c ∈ (u.reverse.takeWhile isPySpace).reverse, isWordChar c = false := by
    intro c hc
    rw [List.mem_reverse] at hc
    exact isPySpace_not_word c (List.mem_takeWhile_imp hc)
  calc countTokensAux (u.reverse.dropWhile isPySpace).reverse false
      = countTokensAux ((u.reverse.dropWhile isPySpace).reverse ++ (u.reverse.takeWhile isPySpace).reverse) false := (countTokensAux_append_nonword _ htail _ _).symm
    _ = countTokensAux u false := by rw [← hsplit]
    _ = countTokensAux s false := countTokensAux_dropWhile_space s

/-- Word counts across a blank-line join add up. -/
lemma count_words_joinSep (l : List Text) :
    count_words (joinSep (txt "\n\n") l) = (l.map count_words).sum := by
  induction l with
  | nil => simp [joinSep, count_words, countTokensAux]
  | cons x xs ih =>
    cases xs with
    | nil => simp [joinSep]
    | cons y rest =>
      rw [joinSep]
      unfold count_words at ih ⊢
      rw [countTokensAux_append_sepList (txt "\n\n") (by decide) (by decide) _ x false, ih]
      simp [count_words]

/-- The manuscript word count is the title word count plus the chapters'. -/
lemma count_words_manuscript (title : Text) (chapters : List Text) :
    count_words (manuscript_text title chapters) =
      count_words title + (chapters.map count_words).sum := by
  unfold manuscript_text count_words
  have hshape : (title ++ txt "\n\n") ++ pyStrip (joinSep (txt "\n\n") chapters) ++ txt "\n"
      = (title ++ txt "\n\n" ++ pyStrip (joinSep (txt "\n\n") chapters)) ++ txt "\n" := by
    simp
  rw [hshape,
    countTokensAux_append_nonword (txt "\n") (by decide),
    countTokensAux_append_sepList (txt "\n\n") (by decide) (by decide) _ title false]
  have h1 := count_words_pyStrip (joinSep (txt "\n\n") chapters)
  have h2 := count_words_joinSep chapters
  unfold count_words at h1 h2
  rw [h1, h2]


/-! ### Step and loop lemmas -/

lemma step_chapters (eng : Engine) (spec : BookSpec) (target : Nat) (s : LoopState) :
    (step eng spec target s).state.chapters
      = s.chapters ++ [(produce_chapter eng spec (s.chapters.length + 1)
          (chapterGoal spec (s.chapters.length + 1)) s.memory target).1] := by
  simp [step]

lemma step_summaries (eng : Engine) (spec : BookSpec) (target : Nat) (s : LoopState) :
    (step eng spec target s).state.summaries
      = s.summaries ++ [chapterSummaryOf eng (s.chapters.length + 1)
          (produce_chapter eng spec (s.chapters.length + 1)
            (chapterGoal spec (s.chapters.length + 1)) s.memory target).1] := by
  simp [step]

lemma step_memory (eng : Engine) (spec : BookSpec) (target : Nat) (s : LoopState) :
    (step eng spec target s).state.memory
      = memoryOf eng s.memory
          (chapterSummaryOf eng (s.chapters.length + 1)
            (produce_chapter eng spec (s.chapters.length + 1)
              (chapterGoal spec (s.chapters.length + 1)) s.memory target).1)
          ((step eng spec target s).state.summaries) := by
  simp [step]

lemma step_len (eng : Engine) (spec : BookSpec) (target : Nat) (s : LoopState) :
    (step eng spec target s).state.chapters.length = s.chapters.length + 1 := by
  simp [step_chapters]

lemma step_word_count (eng : Engine) (spec : BookSpec) (target : Nat) (s : LoopState) :
    (step eng spec target s).persisted_word_count
      = count_words (manuscript_text spec.title ((step eng spec target s).state.chapters)) := by
  simp [step]

lemma genLoopF_zero (eng : Engine) (spec : BookSpec) (min_words target maxch : Nat) (s : LoopState) :
    genLoopF eng spec min_words target maxch 0 s = (s, []) := rfl

lemma genLoopF_succ (eng : Engine) (spec : BookSpec) (min_words target maxch fuel : Nat) (s : LoopState) :
    genLoopF eng spec min_words target maxch (fuel + 1) s =
      if loopCond spec.title min_words maxch s then
        ((genLoopF eng spec min_words target maxch fuel (step eng spec target s).state).1,
          (step eng spec target s).calls ++
            (genLoopF eng spec min_words target maxch fuel (step eng spec target s).state).2)
      else (s, []) := rfl

lemma genLoopF_of_cond_false (eng : Engine) (spec : BookSpec) (min_words target maxch fuel : Nat)
    (s : LoopState) (h : loopCond spec.title min_words maxch s = false) :
    genLoopF eng spec min_words target maxch fuel s = (s, []) := by
  cases fuel with
  | zero => rfl
  | succ fuel => rw [genLoopF_succ]; simp [h]

/-- The loop only exits with its condition false, given sufficient fuel. -/
lemma genLoopF_cond_false (eng : Engine) (spec : BookSpec) (min_words target maxch : Nat) :
    ∀ (fuel : Nat) (s : LoopState), maxch - s.chapters.length ≤ fuel →
      loopCond spec.title min_words maxch (genLoopF eng spec min_words target maxch fuel s).1 = false := by
  intro fuel
  induction fuel with
  | zero =>
    intro s h
    have hlen : ¬ s.chapters.length < maxch := by omega
    rw [genLoopF_zero]
    simp [loopCond, hlen]
  | succ fuel ih =>
    intro s h
    by_cases hc : loopCond spec.title min_words maxch s = true
    · rw [genLoopF_succ, if_pos hc]
      have hlt : s.chapters.length < maxch := by
        have hc2 := hc
        simp only [loopCond, Bool.and_eq_true, decide_eq_true_eq] at hc2
        exact hc2.2
      exact ih _ (by rw [step_len]; omega)
    · have hc' : loopCond spec.title min_words maxch s = false := by simpa using hc
      rw [genLoopF_of_cond_false _ _ _ _ _ _ _ hc']
      exact hc'

/-- Any property re-established by every step is an invariant of the loop. -/
lemma genLoopF_preserve (eng : Engine) (spec : BookSpec) (min_words target maxch : Nat)
    (P : LoopState → Prop) (hstep : ∀ s, P (step eng spec target s).state) :
    ∀ (fuel : Nat) (s : LoopState), P s → P (genLoopF eng spec min_words target maxch fuel s).1 := by
  intro fuel
  induction fuel with
  | zero => intro s h; exact h
  | succ fuel ih =>
    intro s h
    by_cases hc : loopCond spec.title min_words maxch s = true
    · rw [genLoopF_succ, if_pos hc]; exact ih _ (hstep s)
    · have hc' : loopCond spec.title min_words maxch s = false := by simpa using hc
      rw [genLoopF_of_cond_false _ _ _ _ _ _ _ hc']; exact h

/-! ### Facts about the concrete stub chapter -/

/-- Stripping a text that starts and ends with non-whitespace is a no-op. -/
lemma pyStrip_sandwich (c d : Char) (hc : isPySpace c = false) (hd : isPySpace d = false)
    (mid : Text) : pyStrip (c :: (mid ++ [d])) = c :: (mid ++ [d]) := by
  unfold pyStrip
  rw [List.dropWhile_cons_of_neg (by simp [hc])]
  have hrev : (c :: (mid ++ [d])).reverse = d :: (mid.reverse ++ [c]) := by simp
  rw [hrev, List.dropWhile_cons_of_neg (by simp [hd]), ← hrev, List.reverse_reverse]

lemma countTokensAux_stubBody :
    ∀ (k : Nat) (b : Bool),
      countTokensAux (List.flatten (List.replicate k [Char.ofNat 32, Char.ofNat 119])) b = k := by
  intro k
  induction k with
  | zero => intro b; rfl
  | succ k ih =>
    intro b
    rw [List.replicate_succ, List.flatten_cons]
    show countTokensAux (Char.ofNat 32 :: Char.ofNat 119 ::
      List.flatten (List.replicate k [Char.ofNat 32, Char.ofNat 119])) b = k + 1
    rw [countTokensAux_cons_not _ (by decide), countTokensAux_cons_word _ (by decide), ih true]
    simp only [Bool.false_eq_true, if_neg, if_false]
    omega

lemma stub1500_cons :
    stub1500 = Char.ofNat 99 :: Char.ofNat 104 :: Char.ofNat 97 :: Char.ofNat 112 ::
      Char.ofNat 116 :: Char.ofNat 101 :: Char.ofNat 114 :: Char.ofNat 32 :: stubBody := rfl

lemma stub1500_count : count_words stub1500 = 1500 := by
  rw [count_words, stub1500_cons,
    countTokensAux_cons_word _ (by decide), countTokensAux_cons_word _ (by decide),
    countTokensAux_cons_word _ (by decide), countTokensAux_cons_word _ (by decide),
    countTokensAux_cons_word _ (by decide), countTokensAux_cons_word _ (by decide),
    countTokensAux_cons_word _ (by decide), countTokensAux_cons_not _ (by decide)]
  rw [show (countTokensAux stubBody false) = 1499 from countTokensAux_stubBody 1499 false]
  simp

lemma stub1500_shape :
    stub1500 = Char.ofNat 99 ::
      ((txt "hapter " ++ List.flatten (List.replicate 1498 [Char.ofNat 32, Char.ofNat 119]) ++
        [Char.ofNat 32]) ++ [Char.ofNat 119]) := by
  have hsb : stubBody
      = List.flatten (List.replicate 1498 [Char.ofNat 32, Char.ofNat 119]) ++
        [Char.ofNat 32, Char.ofNat 119] := by
    unfold stubBody
    rw [show (1499 : Nat) = 1498 + 1 from rfl, List.replicate_succ', List.flatten_append]
    simp only [List.flatten_cons, List.flatten_nil, List.append_nil]
  have hch : txt "chapter " = Char.ofNat 99 :: txt "hapter " := rfl
  rw [stub1500, hsb, hch]
  simp only [List.cons_append, List.nil_append, List.singleton_append, List.append_assoc]

lemma stub1500_strip : pyStrip stub1500 = stub1500 := by
  rw [stub1500_shape]
  exact pyStrip_sandwich _ _ (by decide) (by decide) _

lemma asciiLower_stub1500 : asciiLower stub1500 = stub1500 := by
  have hpre : List.map asciiLowerChar (txt "chapter ") = txt "chapter " := by decide
  have hmap : List.map asciiLowerChar [Char.ofNat 32, Char.ofNat 119]
      = [Char.ofNat 32, Char.ofNat 119] := by decide
  have hbody : List.map asciiLowerChar stubBody = stubBody := by
    unfold stubBody
    rw [List.map_flatten, List.map_replicate, hmap]
  unfold stub1500 asciiLower
  rw [List.map_append, hpre, hbody]

lemma isPrefixOf_append_self : ∀ (l t : Text), l.isPrefixOf (l ++ t) = true := by
  intro l t
  induction l with
  | nil => simp [List.isPrefixOf]
  | cons c cs ih => simp [List.isPrefixOf, ih]

lemma stub1500_pref : (txt "chapter ").isPrefixOf (asciiLower stub1500) = true := by
  rw [asciiLower_stub1500, stub1500]
  exact isPrefixOf_append_self _ _

/-! ### Behaviour of the controller under a constant generation stub -/

lemma produce_chapter_const (eng : Engine) (spec : BookSpec) (target : Nat) (stub : Text)
    (hgen : ∀ c, eng.generate c = stub) (hstrip : pyStrip stub = stub)
    (hpref : (txt "chapter ").isPrefixOf (asciiLower stub) = true) :
    ∀ (n : Nat) (goal memory : Text), (produce_chapter eng spec n goal memory target).1 = stub := by
  intro n goal memory
  have hfa : first_attempt eng spec n goal memory target = stub := by
    rw [first_attempt, hgen, hstrip, normalizeFirst, if_pos hpref]
  simp only [produce_chapter, hfa, hgen, hstrip]
  split <;> rfl

lemma step_const (eng : Engine) (spec : BookSpec) (target : Nat) (stub : Text)
    (hgen : ∀ c, eng.generate c = stub) (hstrip : pyStrip stub = stub)
    (hpref : (txt "chapter ").isPrefixOf (asciiLower stub) = true) (s : LoopState) :
    (step eng spec target s).state.chapters = s.chapters ++ [stub] := by
  rw [step_chapters, produce_chapter_const eng spec target stub hgen hstrip hpref]

/-- A run from fresh state with a constant 1500-word stub, `min_words = 5000`,
`max_chapters = 3`: exactly three chapters, an under-length failure, and a
metadata word total of 4500 plus the title word count. -/
lemma run_const_stub (eng : Engine) (spec : BookSpec) (target : Nat) (stub : Text)
    (hgen : ∀ c, eng.generate c = stub) (hstrip : pyStrip stub = stub)
    (hpref : (txt "chapter ").isPrefixOf (asciiLower stub) = true)
    (hcount : count_words stub = 1500) (hw : count_words spec.title < 500) :
    (generate_one_book eng spec 5000 target 3 none).final.chapters = [stub, stub, stub] ∧
    (generate_one_book eng spec 5000 target 3 none).metadata.chapters = 3 ∧
    (generate_one_book eng spec 5000 target 3 none).metadata.total_words
      = count_words spec.title + 4500 ∧
    (generate_one_book eng spec 5000 target 3 none).outcome =
      Except.error (underLengthMessage spec.title (count_words spec.title + 4500) 5000) := by
  have hchap := step_const eng spec target stub hgen hstrip hpref
  set s0 : LoopState := initState none with hs0
  have hs0c : s0.chapters = [] := rfl
  set s1 := (step eng spec target s0).state with hs1
  set s2 := (step eng spec target s1).state with hs2
  set s3 := (step eng spec target s2).state with hs3
  have h1 : s1.chapters = [stub] := by rw [hs1, hchap, hs0c]; rfl
  have h2 : s2.chapters = [stub, stub] := by rw [hs2, hchap, h1]; rfl
  have h3 : s3.chapters = [stub, stub, stub] := by rw [hs3, hchap, h2]; rfl
  have hcm : ∀ l : List Text,
      count_words (manuscript_text spec.title l)
        = count_words spec.title + (l.map count_words).sum :=
    fun l => count_words_manuscript _ l
  have c0 : loopCond spec.title 5000 3 s0 = true := by
    simp only [loopCond, hcm, hs0c, Bool.and_eq_true, decide_eq_true_eq]
    simp
    omega
  have c1 : loopCond spec.title 5000 3 s1 = true := by
    simp only [loopCond, hcm, h1, Bool.and_eq_true, decide_eq_true_eq]
    simp [hcount]
    omega
  have c2 : loopCond spec.title 5000 3 s2 = true := by
    simp only [loopCond, hcm, h2, Bool.and_eq_true, decide_eq_true_eq]
    simp [hcount]
    omega
  have u0 : (genLoopF eng spec 5000 target 3 3 s0).1 = (genLoopF eng spec 5000 target 3 2 s1).1 := by
    rw [show (3 : Nat) = 2 + 1 from rfl, genLoopF_succ, if_pos c0, ← hs1]
  have u1 : (genLoopF eng spec 5000 target 3 2 s1).1 = (genLoopF eng spec 5000 target 3 1 s2).1 := by
    rw [show (2 : Nat) = 1 + 1 from rfl, genLoopF_succ, if_pos c1, ← hs2]
  have u2 : (genLoopF eng spec 5000 target 3 1 s2).1 = (genLoopF eng spec 5000 target 3 0 s3).1 := by
    rw [show (1 : Nat) = 0 + 1 from rfl, genLoopF_succ, if_pos c2, ← hs3]
  have hrun : (genLoopF eng spec 5000 target 3 3 s0).1 = s3 := by
    rw [u0, u1, u2, genLoopF_zero]
  have htot : count_words (manuscript_text spec.title
      (genLoopF eng spec 5000 target 3 3 s0).1.chapters) = count_words spec.title + 4500 := by
    rw [hrun, h3, hcm]
    simp [hcount]
  refine ⟨?_, ?_, ?_, ?_⟩
  · simp only [generate_one_book, ← hs0, hrun, h3]
  · simp only [generate_one_book, ← hs0, hrun, h3]
    rfl
  · simp only [generate_one_book, ← hs0, htot]
  · simp only [generate_one_book, ← hs0, htot]
    rw [if_pos (by omega)]

/-! ### Unfolding lemmas for `generate_one_book` -/

lemma generate_one_book_def (eng : Engine) (spec : BookSpec)
    (min_words target maxch : Nat) (prior : Option StateDoc) :
    generate_one_book eng spec min_words target maxch prior =
      { final := (genLoopF eng spec min_words target maxch maxch (initState prior)).1
        calls := (genLoopF eng spec min_words target maxch maxch (initState prior)).2
        manuscript := manuscript_text spec.title
          (genLoopF eng spec min_words target maxch maxch (initState prior)).1.chapters
        metadata := ⟨spec.title, spec.genre,
          count_words (manuscript_text spec.title
            (genLoopF eng spec min_words target maxch maxch (initState prior)).1.chapters),
          (genLoopF eng spec min_words target maxch maxch (initState prior)).1.chapters.length,
          min_words,
          (genLoopF eng spec min_words target maxch maxch (initState prior)).1.summaries⟩
        outcome :=
          if count_words (manuscript_text spec.title
              (genLoopF eng spec min_words target maxch maxch (initState prior)).1.chapters) < min_words
          then Except.error (underLengthMessage spec.title
            (count_words (manuscript_text spec.title
              (genLoopF eng spec min_words target maxch maxch (initState prior)).1.chapters)) min_words)
          else Except.ok (manuscript_text spec.title
            (genLoopF eng spec min_words target maxch maxch (initState prior)).1.chapters) } := rfl

/-! ### Claim theorems -/

/-- C2: rerunning the controller on the durable state left by a completed run
is a no-op: the loop condition is immediately false, so the second run issues
no service calls at all and reproduces the first run byte for byte (final
state, manuscript, metadata, outcome); only its call trace is empty. -/
theorem claim_C2_idempotent_resume (eng : Engine) (spec : BookSpec)
    (min_words target maxch : Nat) (prior : Option StateDoc) :
    generate_one_book eng spec min_words target maxch
        (some ⟨(generate_one_book eng spec min_words target maxch prior).final.chapters,
               (generate_one_book eng spec min_words target maxch prior).final.summaries,
               (generate_one_book eng spec min_words target maxch prior).final.memory⟩)
      = { generate_one_book eng spec min_words target maxch prior with calls := [] } := by
  have hcond : loopCond spec.title min_words maxch
      (genLoopF eng spec min_words target maxch maxch (initState prior)).1 = false :=
    genLoopF_cond_false eng spec min_words target maxch maxch (initState prior) (by omega)
  have hloop2 : genLoopF eng spec min_words target maxch maxch
      (initState (some ⟨(generate_one_book eng spec min_words target maxch prior).final.chapters,
        (generate_one_book eng spec min_words target maxch prior).final.summaries,
        (generate_one_book eng spec min_words target maxch prior).final.memory⟩))
      = ((genLoopF eng spec min_words target maxch maxch (initState prior)).1, []) :=
    genLoopF_of_cond_false _ _ _ _ _ _ _ hcond
  rw [generate_one_book_def eng spec min_words target maxch
      (some ⟨(generate_one_book eng spec min_words target maxch prior).final.chapters,
        (generate_one_book eng spec min_words target maxch prior).final.summaries,
        (generate_one_book eng spec min_words target maxch prior).final.memory⟩),
    hloop2, generate_one_book_def eng spec min_words target maxch prior]

/-- C3: when every merge call fails, the loop never halts on that account and
the story memory recorded after each chapter is the local fallback: the fixed
header followed by the newline-joined most recent five chapter summaries.
The conjuncts state this for every single step, that the loop still runs to
completion (it exits with its condition false), and that the fallback shape
of the memory is an invariant of the whole loop. -/
theorem claim_C3_merge_fallback (eng : Engine) (spec : BookSpec)
    (min_words target maxch : Nat)
    (hm : ∀ a b, ∃ e, eng.merge a b = Except.error e) :
    (∀ s : LoopState, (step eng spec target s).state.memory
        = fallbackMemory ((step eng spec target s).state.summaries)) ∧
    (∀ (fuel : Nat) (s : LoopState), maxch - s.chapters.length ≤ fuel →
      loopCond spec.title min_words maxch
        ((genLoopF eng spec min_words target maxch fuel s).1) = false) ∧
    (∀ (fuel : Nat) (s : LoopState),
      (s.chapters ≠ [] → s.memory = fallbackMemory s.summaries) →
      ((genLoopF eng spec min_words target maxch fuel s).1.chapters ≠ [] →
        (genLoopF eng spec min_words target maxch fuel s).1.memory
          = fallbackMemory ((genLoopF eng spec min_words target maxch fuel s).1.summaries))) := by
  have hmem : ∀ (p c : Text) (l : List Text), memoryOf eng p c l = fallbackMemory l := by
    intro p c l
    obtain ⟨e, he⟩ := hm p c
    simp [memoryOf, merge_memory, he]
  have hstepmem : ∀ s : LoopState, (step eng spec target s).state.memory
      = fallbackMemory ((step eng spec target s).state.summaries) := by
    intro s
    rw [step_memory, hmem]
  refine ⟨hstepmem, genLoopF_cond_false eng spec min_words target maxch, ?_⟩
  intro fuel s hP
  exact genLoopF_preserve eng spec min_words target maxch
    (fun st => st.chapters ≠ [] → st.memory = fallbackMemory st.summaries)
    (fun st _ => hstepmem st) fuel s hP

/-- C3 witness: with a concrete always-failing merge, one concrete step
records the fallback memory. -/
theorem claim_C3_witness :
    (step mergeFailEngine specNM 1800 freshState).state.memory
      = fallbackMemory ((step mergeFailEngine specNM 1800 freshState).state.summaries) :=
  (claim_C3_merge_fallback mergeFailEngine specNM 5000 1800 3
    (fun _ _ => ⟨txt "boom", rfl⟩)).1 freshState

/-- C4: a first attempt below `max 900 (target / 2)` words triggers exactly
one regeneration call — with the objective extended by the fuller-scenes
instruction, the target relaxed to `max target 2000`, and a higher
temperature (0.8 over 0.75) — whose stripped output is accepted
unconditionally; a first attempt at or above the threshold is accepted with
no regeneration call. -/
theorem claim_C4_single_regeneration (eng : Engine) (spec : BookSpec) (n : Nat)
    (goal memory : Text) (target : Nat) :
    (count_words (first_attempt eng spec n goal memory target) < max 900 (target / 2) →
      produce_chapter eng spec n goal memory target
        = (pyStrip (eng.generate (retryCall spec n goal memory target)),
           [firstCall spec n goal memory target, retryCall spec n goal memory target])) ∧
    (max 900 (target / 2) ≤ count_words (first_attempt eng spec n goal memory target) →
      produce_chapter eng spec n goal memory target
        = (first_attempt eng spec n goal memory target,
           [firstCall spec n goal memory target])) ∧
    retryCall spec n goal memory target
      = { system := (make_chapter_prompt spec n
            (goal ++ txt " Write fuller scenes and dialogue.") memory (max target 2000)).1
          prompt := (make_chapter_prompt spec n
            (goal ++ txt " Write fuller scenes and dialogue.") memory (max target 2000)).2
          temperature := 0.8 } ∧
    (firstCall spec n goal memory target).temperature
      < (retryCall spec n goal memory target).temperature := by
  refine ⟨?_, ?_, rfl, ?_⟩
  · intro h
    simp only [produce_chapter]
    rw [if_pos h]
  · intro h
    simp only [produce_chapter]
    rw [if_neg (by omega)]
  · norm_num [firstCall, retryCall]

/-- C4 witness: a two-letter first attempt is below the threshold and forces
the single regeneration at a concrete input. -/
theorem claim_C4_witness :
    count_words (first_attempt shortEngine specNM 1 (txt "g") (txt "m") 1800)
        < max 900 (1800 / 2) ∧
    produce_chapter shortEngine specNM 1 (txt "g") (txt "m") 1800
      = (pyStrip (shortEngine.generate (retryCall specNM 1 (txt "g") (txt "m") 1800)),
         [firstCall specNM 1 (txt "g") (txt "m") 1800,
          retryCall specNM 1 (txt "g") (txt "m") 1800]) :=
  ⟨by decide,
   (claim_C4_single_regeneration shortEngine specNM 1 (txt "g") (txt "m") 1800).1 (by decide)⟩

/-- C5: the metadata artifact always records the final word count, chapter
count, word floor and all chapter summaries — it is produced in both the
success and the failure outcome, matching the source order in which the
metadata file is written before the under-length failure is raised — and the
under-length failure, carrying the exact remediation message, is raised
exactly when the final count is below the floor. -/
theorem claim_C5_metadata_then_failure (eng : Engine) (spec : BookSpec)
    (min_words target maxch : Nat) (prior : Option StateDoc) :
    (generate_one_book eng spec min_words target maxch prior).metadata
      = ⟨spec.title, spec.genre,
         count_words (generate_one_book eng spec min_words target maxch prior).manuscript,
         (generate_one_book eng spec min_words target maxch prior).final.chapters.length,
         min_words,
         (generate_one_book eng spec min_words target maxch prior).final.summaries⟩ ∧
    (count_words (generate_one_book eng spec min_words target maxch prior).manuscript < min_words →
      (generate_one_book eng spec min_words target maxch prior).outcome
        = Except.error (underLengthMessage spec.title
            (count_words (generate_one_book eng spec min_words target maxch prior).manuscript)
            min_words)) ∧
    (min_words ≤ count_words (generate_one_book eng spec min_words target maxch prior).manuscript →
      (generate_one_book eng spec min_words target maxch prior).outcome
        = Except.ok (generate_one_book eng spec min_words target maxch prior).manuscript) := by
  refine ⟨rfl, ?_, ?_⟩
  · intro h
    have hc : count_words (manuscript_text spec.title
        (genLoopF eng spec min_words target maxch maxch (initState prior)).1.chapters) < min_words := h
    show (if count_words (manuscript_text spec.title
        (genLoopF eng spec min_words target maxch maxch (initState prior)).1.chapters) < min_words
      then Except.error (underLengthMessage spec.title
        (count_words (manuscript_text spec.title
          (genLoopF eng spec min_words target maxch maxch (initState prior)).1.chapters)) min_words)
      else Except.ok (manuscript_text spec.title
        (genLoopF eng spec min_words target maxch maxch (initState prior)).1.chapters)) = _
    rw [if_pos hc]
    rfl
  · intro h
    have hc : ¬ count_words (manuscript_text spec.title
        (genLoopF eng spec min_words target maxch maxch (initState prior)).1.chapters) < min_words := by
      have hge : min_words ≤ count_words (manuscript_text spec.title
          (genLoopF eng spec min_words target maxch maxch (initState prior)).1.chapters) := h
      omega
    show (if count_words (manuscript_text spec.title
        (genLoopF eng spec min_words target maxch maxch (initState prior)).1.chapters) < min_words
      then Except.error (underLengthMessage spec.title
        (count_words (manuscript_text spec.title
          (genLoopF eng spec min_words target maxch maxch (initState prior)).1.chapters)) min_words)
      else Except.ok (manuscript_text spec.title
        (genLoopF eng spec min_words target maxch maxch (initState prior)).1.chapters)) = _
    rw [if_neg hc]
    rfl

/-- C5 witness: a run capped at zero chapters finishes under length, and the
metadata-carrying result ends in the exact under-length failure message. -/
theorem claim_C5_witness :
    count_words (generate_one_book shortEngine specNM 5000 1800 0 none).manuscript < 5000 ∧
    (generate_one_book shortEngine specNM 5000 1800 0 none).outcome
      = Except.error (underLengthMessage specNM.title
          (count_words (generate_one_book shortEngine specNM 5000 1800 0 none).manuscript) 5000) :=
  ⟨by decide, (claim_C5_metadata_then_failure shortEngine specNM 5000 1800 0 none).2.1 (by decide)⟩

/-- C7: every step appends exactly one chapter and exactly one summary (so
both lists are append-only), the persisted word count is the manuscript word
count of the new chapter list, the word count never decreases, and equality
of the two list lengths is preserved into the persisted state. -/
theorem claim_C7_monotonic_state (eng : Engine) (spec : BookSpec) (target : Nat) (s : LoopState) :
    ∃ c m,
      (step eng spec target s).state.chapters = s.chapters ++ [c] ∧
      (step eng spec target s).state.summaries = s.summaries ++ [m] ∧
      (step eng spec target s).persisted_word_count
        = count_words (manuscript_text spec.title ((step eng spec target s).state.chapters)) ∧
      count_words (manuscript_text spec.title s.chapters)
        ≤ count_words (manuscript_text spec.title ((step eng spec target s).state.chapters)) ∧
      (s.chapters.length = s.summaries.length →
        (step eng spec target s).state.chapters.length
          = (step eng spec target s).state.summaries.length) := by
  refine ⟨_, _, step_chapters eng spec target s, step_summaries eng spec target s,
    step_word_count eng spec target s, ?_, ?_⟩
  · rw [step_chapters, count_words_manuscript, count_words_manuscript]
    simp only [List.map_append, List.sum_append]
    omega
  · intro h
    rw [step_chapters, step_summaries]
    simp [h]

/-- C7 witness: a concrete step from the fresh state preserves the equal
lengths of the chapter and summary lists. -/
theorem claim_C7_witness :
    (step shortEngine specNM 1800 freshState).state.chapters.length
      = (step shortEngine specNM 1800 freshState).state.summaries.length := by
  obtain ⟨c, m, h1, h2, h3, h4, h5⟩ := claim_C7_monotonic_state shortEngine specNM 1800 freshState
  exact h5 rfl

/-- C8: the generation call of a step is built from the objective selected
for chapter number `len(chapters) + 1`, and that selection takes the authored
plan at index `n - 1` while `n` is within the plan list and the fixed generic
escalation objective beyond it. -/
theorem claim_C8_objective_selection (eng : Engine) (spec : BookSpec) (target : Nat) (s : LoopState) :
    ((step eng spec target s).calls.head?
      = some (CallEvent.gen (firstCall spec (s.chapters.length + 1)
          (chapterGoal spec (s.chapters.length + 1)) s.memory target))) ∧
    (∀ n : Nat, 1 ≤ n → n ≤ spec.chapter_plans.length →
      chapterGoal spec n = spec.chapter_plans.getD (n - 1) (txt "")) ∧
    (∀ n : Nat, spec.chapter_plans.length < n → chapterGoal spec n = escalationGoal) := by
  refine ⟨?_, ?_, ?_⟩
  · simp only [step, produce_chapter]
    split <;> simp
  · intro n h1 h2
    rw [chapterGoal, if_pos h2]
  · intro n h
    rw [chapterGoal, if_neg (by omega)]

/-- C8 witness: for the concrete two-plan book, chapter 1 uses the first
authored plan and chapter 3 the generic escalation objective. -/
theorem claim_C8_witness :
    chapterGoal specNM 1 = specNM.chapter_plans.getD 0 (txt "") ∧
    chapterGoal specNM 3 = escalationGoal := by
  obtain ⟨h1, h2, h3⟩ := claim_C8_objective_selection shortEngine specNM 1800 freshState
  exact ⟨h2 1 (by norm_num) (by decide), h3 3 (by decide)⟩

/-- C9: the word count driving the loop condition and the persisted
`word_count` field is taken over the full manuscript including the title
header, so it always equals the title word count plus the sum of the chapter
word counts. -/
theorem claim_C9_title_words_count :
    (∀ (title : Text) (chapters : List Text),
      count_words (manuscript_text title chapters)
        = count_words title + (chapters.map count_words).sum) ∧
    (∀ (eng : Engine) (spec : BookSpec) (target : Nat) (s : LoopState),
      (step eng spec target s).persisted_word_count
        = count_words (manuscript_text spec.title ((step eng spec target s).state.chapters))) :=
  ⟨count_words_manuscript, step_word_count⟩

/-- C10: the health-check timeout is `max 5 (min t 30)`: capped at 30,
floored at 5, and strictly longer than any configured timeout below 5. -/
theorem claim_C10_health_timeout (t : Int) :
    health_check_timeout t = max 5 (min t 30) ∧
    health_check_timeout t ≤ 30 ∧
    5 ≤ health_check_timeout t ∧
    (t < 5 → t < health_check_timeout t) := by
  refine ⟨rfl, ?_, le_max_left _ _, ?_⟩
  · exact max_le (by norm_num) (min_le_right _ _)
  · intro h
    exact lt_of_lt_of_le h (le_max_left _ _)

/-- C10 witness: a configured timeout of 2 seconds is below 5 and the health
check then uses a strictly longer timeout. -/
theorem claim_C10_witness : (2 : Int) < 5 ∧ (2 : Int) < health_check_timeout 2 :=
  ⟨by norm_num, (claim_C10_health_timeout 2).2.2.2 (by norm_num)⟩

/-! ### Transport retry loop -/

lemma ollamaLoop_ok (env : Nat → Except NetErr Text) (retries attempt fuel : Nat) (t : Text)
    (h : attemptResult env attempt = Except.ok t) :
    ollamaLoop env retries attempt fuel = ⟨Except.ok t, attempt, []⟩ := by
  cases fuel <;> · unfold ollamaLoop; rw [h]

lemma ollamaLoop_err_last (env : Nat → Except NetErr Text) (retries attempt fuel : Nat)
    (e : TransientErr) (h : attemptResult env attempt = Except.error e)
    (hge : retries ≤ attempt) :
    ollamaLoop env retries attempt fuel = ⟨Except.error (attempt, e), attempt, []⟩ := by
  cases fuel <;> · unfold ollamaLoop; rw [h]; simp [hge]

lemma ollamaLoop_err_retry (env : Nat → Except NetErr Text) (retries attempt fuel : Nat)
    (e : TransientErr) (h : attemptResult env attempt = Except.error e)
    (hlt : ¬ retries ≤ attempt) :
    ollamaLoop env retries attempt (fuel + 1)
      = ⟨(ollamaLoop env retries (attempt + 1) fuel).result,
         (ollamaLoop env retries (attempt + 1) fuel).attemptsMade,
         attempt * 2 :: (ollamaLoop env retries (attempt + 1) fuel).sleeps⟩ := by
  conv_lhs => unfold ollamaLoop
  rw [h]
  simp [hlt]

lemma attemptResult_ok_ne_nil (env : Nat → Except NetErr Text) (k : Nat) (t : Text)
    (h : attemptResult env k = Except.ok t) : t ≠ [] := by
  unfold attemptResult at h
  cases henv : env k with
  | error e => rw [henv] at h; exact Except.noConfusion h
  | ok body =>
    rw [henv] at h
    dsimp only at h
    by_cases he : (pyStrip body).isEmpty = true
    · rw [if_pos he] at h
      exact Except.noConfusion h
    · rw [if_neg he] at h
      injection h with h2
      rw [← h2]
      intro hnil
      exact he (by rw [hnil]; rfl)

/-- C6: the transport call with the default budget of 3 makes between 1 and 3
attempts; it sleeps `attempt_index * 2` seconds after each failed non-final
attempt; a success returns the (necessarily non-blank) stripped response of
the first successful attempt, all earlier attempts having failed; and a
terminal error is raised exactly after the third attempt, carrying the last
underlying cause. -/
theorem claim_C6_transport_retries (env : Nat → Except NetErr Text) :
    (1 ≤ (ollama_generate env 3).attemptsMade ∧ (ollama_generate env 3).attemptsMade ≤ 3) ∧
    (ollama_generate env 3).sleeps
      = (List.range ((ollama_generate env 3).attemptsMade - 1)).map (fun i => (i + 1) * 2) ∧
    (∀ t, (ollama_generate env 3).result = Except.ok t →
      t ≠ [] ∧ attemptResult env (ollama_generate env 3).attemptsMade = Except.ok t ∧
        (∀ k, 1 ≤ k → k < (ollama_generate env 3).attemptsMade →
          ∃ e, attemptResult env k = Except.error e)) ∧
    (∀ a e, (ollama_generate env 3).result = Except.error (a, e) →
      a = 3 ∧ (ollama_generate env 3).attemptsMade = 3 ∧
        attemptResult env 3 = Except.error e) := by
  cases h1 : attemptResult env 1 with
  | ok t1 =>
    have hr : ollama_generate env 3 = ⟨Except.ok t1, 1, []⟩ :=
      ollamaLoop_ok env 3 1 3 t1 h1
    rw [hr]
    dsimp only
    refine ⟨⟨le_refl 1, by norm_num⟩, rfl, ?_, ?_⟩
    · intro t ht
      injection ht with ht2
      subst ht2
      refine ⟨attemptResult_ok_ne_nil env 1 t1 h1, h1, ?_⟩
      intro k hk1 hk2
      omega
    · intro a e hae
      exact Except.noConfusion hae
  | error e1 =>
    have hr1 : ollamaLoop env 3 1 3
        = ⟨(ollamaLoop env 3 2 2).result, (ollamaLoop env 3 2 2).attemptsMade,
           2 :: (ollamaLoop env 3 2 2).sleeps⟩ := by
      have h := ollamaLoop_err_retry env 3 1 2 e1 h1 (by norm_num)
      norm_num at h
      exact h
    cases h2 : attemptResult env 2 with
    | ok t2 =>
      have hr : ollama_generate env 3 = ⟨Except.ok t2, 2, [2]⟩ := by
        rw [ollama_generate, hr1, ollamaLoop_ok env 3 2 2 t2 h2]
      rw [hr]
      dsimp only
      refine ⟨⟨by norm_num, by norm_num⟩, rfl, ?_, ?_⟩
      · intro t ht
        injection ht with ht2
        subst ht2
        refine ⟨attemptResult_ok_ne_nil env 2 t2 h2, h2, ?_⟩
        intro k hk1 hk2
        have hk : k = 1 := by omega
        subst hk
        exact ⟨e1, h1⟩
      · intro a e hae
        exact Except.noConfusion hae
    | error e2 =>
      have hr2 : ollamaLoop env 3 2 2
          = ⟨(ollamaLoop env 3 3 1).result, (ollamaLoop env 3 3 1).attemptsMade,
             4 :: (ollamaLoop env 3 3 1).sleeps⟩ := by
        have h := ollamaLoop_err_retry env 3 2 1 e2 h2 (by norm_num)
        norm_num at h
        exact h
      cases h3 : attemptResult env 3 with
      | ok t3 =>
        have hr : ollama_generate env 3 = ⟨Except.ok t3, 3, [2, 4]⟩ := by
          rw [ollama_generate, hr1, hr2, ollamaLoop_ok env 3 3 1 t3 h3]
        rw [hr]
        dsimp only
        refine ⟨⟨by norm_num, by norm_num⟩, rfl, ?_, ?_⟩
        · intro t ht
          injection ht with ht2
          subst ht2
          refine ⟨attemptResult_ok_ne_nil env 3 t3 h3, ?_, ?_⟩
          · simp [h3]
          · intro k hk1 hk2
            have hk : k = 1 ∨ k = 2 := by omega
            rcases hk with hk | hk <;> subst hk
            · exact ⟨e1, h1⟩
            · exact ⟨e2, h2⟩
        · intro a e hae
          exact Except.noConfusion hae
      | error e3 =>
        have hr : ollama_generate env 3 = ⟨Except.error (3, e3), 3, [2, 4]⟩ := by
          rw [ollama_generate, hr1, hr2, ollamaLoop_err_last env 3 3 1 e3 h3 (le_refl 3)]
        rw [hr]
        dsimp only
        refine ⟨⟨by norm_num, by norm_num⟩, rfl, ?_, ?_⟩
        · intro t ht
          exact Except.noConfusion ht
        · intro a e hae
          injection hae with hae2
          injection hae2 with ha he
          subst ha
          subst he
          exact ⟨rfl, rfl, by simp [h3]⟩

/-- C6 witness: when every attempt times out, the call makes exactly three
attempts, sleeps 2 then 4 seconds, and raises carrying the last cause. -/
theorem claim_C6_witness :
    (ollama_generate envAllFail 3).attemptsMade = 3 ∧
    attemptResult envAllFail 3 = Except.error (TransientErr.net NetErr.timeoutError) := by
  obtain ⟨hb, hs, hok, herr⟩ := claim_C6_transport_retries envAllFail
  obtain ⟨ha, hm, hc⟩ := herr 3 (TransientErr.net NetErr.timeoutError) (by rfl)
  exact ⟨hm, hc⟩

/-- C1 (amended): with a generation stub returning a fixed 1500-word chapter
text (stable under stripping and starting with the chapter marker),
`min_words = 5000` and `max_chapters = 3`, a fresh run produces exactly 3
chapters and raises the under-length terminal failure; the total recorded in
metadata is 4500 **plus the word count of the book title** (the title header
is part of the counted manuscript), for any title of fewer than 500 words —
it equals 4500 exactly when the title contains no words. -/
theorem claim_C1_loop_bounds (eng : Engine) (spec : BookSpec) (target : Nat) (stub : Text)
    (hgen : ∀ c, eng.generate c = stub) (hstrip : pyStrip stub = stub)
    (hpref : (txt "chapter ").isPrefixOf (asciiLower stub) = true)
    (hcount : count_words stub = 1500) (hw : count_words spec.title < 500) :
    (generate_one_book eng spec 5000 target 3 none).final.chapters.length = 3 ∧
    (generate_one_book eng spec 5000 target 3 none).metadata.chapters = 3 ∧
    (generate_one_book eng spec 5000 target 3 none).metadata.total_words
      = count_words spec.title + 4500 ∧
    (generate_one_book eng spec 5000 target 3 none).outcome =
      Except.error (underLengthMessage spec.title (count_words spec.title + 4500) 5000) := by
  obtain ⟨h1, h2, h3, h4⟩ := run_const_stub eng spec target stub hgen hstrip hpref hcount hw
  exact ⟨by rw [h1]; rfl, h2, h3, h4⟩

/-- C1 counterexample: for the concrete book titled `Null Meridian` (two
words) and a fixed 1500-word stub chapter, the run does produce 3 chapters
and raise the under-length failure, but the metadata records
`total_words = 4502`, not 4500 as the claim states. -/
theorem claim_C1_counterexample :
    (generate_one_book stubEngine specNM 5000 1800 3 none).final.chapters.length = 3 ∧
    (∃ e, (generate_one_book stubEngine specNM 5000 1800 3 none).outcome = Except.error e) ∧
    (generate_one_book stubEngine specNM 5000 1800 3 none).metadata.total_words = 4502 ∧
    (generate_one_book stubEngine specNM 5000 1800 3 none).metadata.total_words ≠ 4500 := by
  obtain ⟨h1, h2, h3, h4⟩ := run_const_stub stubEngine specNM 1800 stub1500
    (fun _ => rfl) stub1500_strip stub1500_pref stub1500_count (by decide)
  have ht : count_words specNM.title = 2 := by decide
  rw [ht] at h3 h4
  exact ⟨by rw [h1]; rfl, ⟨_, h4⟩, by rw [h3], by rw [h3]; norm_num⟩

/-- C1 witness: the amended theorem instantiated at the concrete stub,
engine and book. -/
theorem claim_C1_witness :
    count_words stub1500 = 1500 ∧
    count_words specNM.title < 500 ∧
    (generate_one_book stubEngine specNM 5000 1800 3 none).final.chapters.length = 3 ∧
    (generate_one_book stubEngine specNM 5000 1800 3 none).metadata.total_words
      = count_words specNM.title + 4500 :=
  ⟨stub1500_count, by decide,
   (claim_C1_loop_bounds stubEngine specNM 1800 stub1500 (fun _ => rfl) stub1500_strip
      stub1500_pref stub1500_count (by decide)).1,
   (claim_C1_loop_bounds stubEngine specNM 1800 stub1500 (fun _ => rfl) stub1500_strip
      stub1500_pref stub1500_count (by decide)).2.2.1⟩

end BookGen
